import Mathlib

/-!
Verification of the Caption-then-Extract pipeline of `app.py`
(clothing-analyzer): the two client functions `call_blip_endpoint` and
`call_llm_endpoint` are shallowly embedded, with the parsed JSON response
bodies modelled by an explicit JSON value type and the Python standard
library call `json.loads` modelled by an executable JSON decoder.
Network effects are made explicit: each client takes the outcome of its
single remote call (timeout / transport error / parsed body) as an input.
-/

namespace ClothingAnalyzer

/-! ## JSON values

`JValue` models the values produced by Python `json.loads`: strings,
numbers (modelled as integers; fractional JSON numbers are not needed by
any response handled here and are not modelled), booleans, `None`, lists
and dicts.  `JObject` is an insertion-ordered dictionary, matching Python
dict semantics (assignment to an existing key keeps its position). -/

mutual

inductive JValue where
  | str (s : String)
  | num (n : Int)
  | bool (b : Bool)
  | null
  | arr (xs : JArray)
  | obj (kvs : JObject)

inductive JArray where
  | nil
  | cons (v : JValue) (rest : JArray)

inductive JObject where
  | nil
  | cons (k : String) (v : JValue) (rest : JObject)

end

deriving instance DecidableEq for JValue, JArray, JObject

def JArray.toList : JArray → List JValue
  | .nil => []
  | .cons v rest => v :: rest.toList

/-- Python `key in d`. -/
def JObject.lookup : JObject → String → Option JValue
  | .nil, _ => none
  | .cons k v rest, key => if k = key then some v else rest.lookup key

def JObject.hasKey (o : JObject) (k : String) : Bool :=
  (o.lookup k).isSome

/-- Python `d.get(key, default)`. -/
def JObject.getD (o : JObject) (k : String) (d : JValue) : JValue :=
  (o.lookup k).getD d

/-- Python `d[key] = v`: replace in place (keeping the key's position) or
append a new key at the end. -/
def JObject.set : JObject → String → JValue → JObject
  | .nil, k, v => .cons k v .nil
  | .cons k1 v1 rest, k, v =>
    if k1 = k then .cons k1 v rest else .cons k1 v1 (rest.set k v)

/-! ## String helpers -/

/-- Python `pat in hay` on strings (substring containment), on char lists. -/
def listContainsSub (hay pat : List Char) : Bool :=
  match hay with
  | [] => pat.isEmpty
  | _ :: t => pat.isPrefixOf hay || listContainsSub t pat

/-- Python `pat in hay` on strings. -/
def strContains (hay pat : String) : Bool :=
  listContainsSub hay.toList pat.toList

/-- Python `s.startswith(pre)`. -/
def strStartsWith (s pre : String) : Bool :=
  pre.toList.isPrefixOf s.toList

/-- Python `s.lower()` (ASCII case folding, as used here). -/
def strToLower (s : String) : String :=
  String.mk (s.toList.map Char.toLower)

/-- Index of the first occurrence of `c` (Python `s.find(c)`, with `none`
for `-1`). -/
def firstIdx (cs : List Char) (c : Char) : Option Nat :=
  match cs with
  | [] => none
  | x :: rest => if x = c then some 0 else (firstIdx rest c).map (· + 1)

/-- Index of the last occurrence of `c` (Python `s.rfind(c)`, with `none`
for `-1`). -/
def lastIdx (cs : List Char) (c : Char) : Option Nat :=
  (firstIdx cs.reverse c).map (fun i => cs.length - 1 - i)

/-! ## Python `str()` / `repr()` rendering

Used only inside the error-message strings that interpolate response
data (`f"... {result}"`).  `pyReprString` renders the common case of
CPython `repr` on a string (single quotes, basic escapes); exotic cases
(strings containing a single quote trigger CPython's quote switching)
are approximated. -/

def pyEscChar (c : Char) : List Char :=
  if c = '\\' then ['\\', '\\']
  else if c = Char.ofNat 39 then ['\\', Char.ofNat 39]
  else if c = '\n' then ['\\', 'n']
  else if c = Char.ofNat 13 then ['\\', 'r']
  else if c = '\t' then ['\\', 't']
  else [c]

def pyReprString (s : String) : String :=
  String.mk (Char.ofNat 39 :: (s.toList.foldr (fun c acc => pyEscChar c ++ acc) [Char.ofNat 39]))

mutual

/-- Python `repr(v)` for a `json.loads` result value. -/
def pyRepr : JValue → String
  | .str s => pyReprString s
  | .num n => toString n
  | .bool b => if b then "True" else "False"
  | .null => "None"
  | .arr xs => "[" ++ pyReprElems xs ++ "]"
  | .obj kvs => "\x7b" ++ pyReprMembers kvs ++ "\x7d"

def pyReprElems : JArray → String
  | .nil => ""
  | .cons v .nil => pyRepr v
  | .cons v rest => pyRepr v ++ ", " ++ pyReprElems rest

def pyReprMembers : JObject → String
  | .nil => ""
  | .cons k v .nil => pyReprString k ++ ": " ++ pyRepr v
  | .cons k v rest => pyReprString k ++ ": " ++ pyRepr v ++ ", " ++ pyReprMembers rest

end

/-- Python `str(v)` (equal to `repr(v)` except at top-level strings). -/
def pyStr (v : JValue) : String :=
  match v with
  | .str s => s
  | _ => pyRepr v

/-- Python `str(l)` for an ordinary list of `json.loads` values. -/
def pyStrList (l : List JValue) : String :=
  "[" ++ String.intercalate ", " (l.map pyRepr) ++ "]"

/-- Python `type(v)` rendering, as interpolated into f-strings. -/
def pyTypeName (v : JValue) : String :=
  match v with
  | .str _ => "<class \x27str\x27>"
  | .num _ => "<class \x27int\x27>"
  | .bool _ => "<class \x27bool\x27>"
  | .null => "<class \x27NoneType\x27>"
  | .arr _ => "<class \x27list\x27>"
  | .obj _ => "<class \x27dict\x27>"

/-! ## JSON decoding (model of Python `json.loads`)

A fuel-indexed recursive-descent decoder.  Faithful to RFC 8259 JSON as
accepted by Python `json.loads` on the shapes occurring here, with two
documented restrictions: numbers are decoded only when integral (no
fraction/exponent), and `\uXXXX` escapes in the surrogate range are
rejected. -/

def isJsonWs (c : Char) : Bool :=
  c = ' ' || c = '\t' || c = '\n' || c = Char.ofNat 13

def skipWs : List Char → List Char
  | [] => []
  | c :: cs => if isJsonWs c then skipWs cs else c :: cs

def hexVal (c : Char) : Option Nat :=
  if 48 ≤ c.toNat ∧ c.toNat ≤ 57 then some (c.toNat - 48)
  else if 97 ≤ c.toNat ∧ c.toNat ≤ 102 then some (c.toNat - 87)
  else if 65 ≤ c.toNat ∧ c.toNat ≤ 70 then some (c.toNat - 55)
  else none

def escChar (e : Char) : Option Char :=
  if e = '"' then some '"'
  else if e = '\\' then some '\\'
  else if e = '/' then some '/'
  else if e = 'b' then some (Char.ofNat 8)
  else if e = 'f' then some (Char.ofNat 12)
  else if e = 'n' then some '\n'
  else if e = 'r' then some (Char.ofNat 13)
  else if e = 't' then some '\t'
  else none

/-- Decode the remainder of a JSON string (after the opening quote),
returning the decoded characters and the input following the closing
quote. -/
def parseStringRest : List Char → Option (List Char × List Char)
  | [] => none
  | c :: cs =>
    if c = '"' then some ([], cs)
    else if c = '\\' then
      match cs with
      | [] => none
      | e :: cs2 =>
        if e = 'u' then
          match cs2 with
          | h1 :: h2 :: h3 :: h4 :: cs3 =>
            match hexVal h1, hexVal h2, hexVal h3, hexVal h4 with
            | some a, some b, some c3, some d =>
              let n := ((a * 16 + b) * 16 + c3) * 16 + d
              if 0xD800 ≤ n ∧ n < 0xE000 then none
              else (parseStringRest cs3).map (fun p => (Char.ofNat n :: p.1, p.2))
            | _, _, _, _ => none
          | _ => none
        else
          match escChar e with
          | some ch => (parseStringRest cs2).map (fun p => (ch :: p.1, p.2))
          | none => none
    else if c.toNat < 32 then none
    else (parseStringRest cs).map (fun p => (c :: p.1, p.2))

def digitsSpan : List Char → List Char × List Char
  | [] => ([], [])
  | c :: cs =>
    if 48 ≤ c.toNat ∧ c.toNat ≤ 57 then
      let p := digitsSpan cs
      (c :: p.1, p.2)
    else ([], c :: cs)

def digitsToNat (acc : Nat) : List Char → Nat
  | [] => acc
  | c :: cs => digitsToNat (acc * 10 + (c.toNat - 48)) cs

/-- Decode a JSON integer token.  Fractional or exponent forms are not
modelled and make the decode fail. -/
def parseIntTok (cs : List Char) : Option (Int × List Char) :=
  let p0 := match cs with
    | '-' :: r => (true, r)
    | _ => (false, cs)
  let p := digitsSpan p0.2
  if p.1.isEmpty then none
  else if p.1.length > 1 ∧ p.1.head? = some '0' then none
  else
    let bad := match p.2 with
      | c :: _ => c = '.' || c = 'e' || c = 'E'
      | [] => false
    if bad then none
    else
      let n : Int := Int.ofNat (digitsToNat 0 p.1)
      some ((if p0.1 then -n else n), p.2)

/-- Build a dict from decoded members in order, Python-style (a duplicate
key keeps its first position with the latest value). -/
def buildObj (ms : List (String × JValue)) : JObject :=
  ms.foldl (fun o kv => o.set kv.1 kv.2) JObject.nil

mutual

def parseVal (fuel : Nat) (cs : List Char) : Option (JValue × List Char) :=
  match fuel with
  | 0 => none
  | fuel + 1 =>
    match skipWs cs with
    | [] => none
    | c :: rest =>
      if c = '"' then
        (parseStringRest rest).map (fun p => (JValue.str (String.mk p.1), p.2))
      else if c = '[' then
        match skipWs rest with
        | ']' :: r2 => some (JValue.arr JArray.nil, r2)
        | other => (parseElems fuel other).map (fun p => (JValue.arr p.1, p.2))
      else if c = Char.ofNat 123 then
        match skipWs rest with
        | d :: r2 =>
          if d = Char.ofNat 125 then some (JValue.obj JObject.nil, r2)
          else (parseMembers fuel (d :: r2)).map (fun p => (JValue.obj (buildObj p.1), p.2))
        | [] => none
      else if c = 't' then
        match rest with
        | 'r' :: 'u' :: 'e' :: r => some (JValue.bool true, r)
        | _ => none
      else if c = 'f' then
        match rest with
        | 'a' :: 'l' :: 's' :: 'e' :: r => some (JValue.bool false, r)
        | _ => none
      else if c = 'n' then
        match rest with
        | 'u' :: 'l' :: 'l' :: r => some (JValue.null, r)
        | _ => none
      else
        (parseIntTok (c :: rest)).map (fun p => (JValue.num p.1, p.2))

def parseElems (fuel : Nat) (cs : List Char) : Option (JArray × List Char) :=
  match fuel with
  | 0 => none
  | fuel + 1 =>
    match parseVal fuel cs with
    | none => none
    | some (v, r) =>
      match skipWs r with
      | c :: r2 =>
        if c = ',' then (parseElems fuel r2).map (fun p => (JArray.cons v p.1, p.2))
        else if c = ']' then some (JArray.cons v JArray.nil, r2)
        else none
      | [] => none

def parseMembers (fuel : Nat) (cs : List Char) :
    Option (List (String × JValue) × List Char) :=
  match fuel with
  | 0 => none
  | fuel + 1 =>
    match skipWs cs with
    | c :: r =>
      if c = '"' then
        match parseStringRest r with
        | none => none
        | some (k, r2) =>
          match skipWs r2 with
          | c2 :: r3 =>
            if c2 = ':' then
              match parseVal fuel r3 with
              | none => none
              | some (v, r4) =>
                match skipWs r4 with
                | d :: r5 =>
                  if d = ',' then
                    (parseMembers fuel r5).map
                      (fun p => ((String.mk k, v) :: p.1, p.2))
                  else if d = Char.ofNat 125 then
                    some ([(String.mk k, v)], r5)
                  else none
                | [] => none
            else none
          | [] => none
      else none
    | [] => none

end

/-- Model of Python `json.loads`: `none` models a raised
`json.JSONDecodeError`. -/
def loads (s : String) : Option JValue :=
  let cs := s.toList
  match parseVal (4 * cs.length + 8) cs with
  | some (v, rest) => if (skipWs rest).isEmpty then some v else none
  | none => none

/-! ## Caption Client: `call_blip_endpoint` (app.py lines 47-86)

The body of the `try` block after `response.json()` succeeded is modelled
with the parsed response body as input; the `except` clauses are modelled
as the alternative constructors of `BlipOutcome`. -/

inductive BlipOutcome where
  | timeout
  | reqError (detail : String)
  | otherError (detail : String)
  | ok (body : JValue)

/-- Lines 69-70: `'predictions' in result and isinstance(result['predictions'], list)
and len(result['predictions']) > 0`, then `result['predictions'][0]`.
(For a non-dict `result`, Python `in` either yields `False` or raises a
`TypeError` caught by the generic handler; both are failures.  Claims are
stated over dict bodies, where this model is exact.) -/
def predictionsFirst (body : JValue) : Option JValue :=
  match body with
  | JValue.obj o =>
    match o.lookup "predictions" with
    | some (JValue.arr xs) =>
      match xs.toList with
      | [] => none
      | p :: _ => some p
    | _ => none
  | _ => none

/-- Lines 71-74: normalize the prediction item, accepting a bare string or
a `\x7b"0": string\x7d` dict; anything else leaves `caption = None`. -/
def blipCaption (pred : JValue) : Option String :=
  match pred with
  | JValue.str s => some s
  | JValue.obj o =>
    match o.lookup "0" with
    | some (JValue.str s) => some s
    | _ => none
  | _ => none

/-- `call_blip_endpoint(image_bytes, blip_url, token)`, lines 47-86.
The image bytes only flow into the request body, never into the result,
so they are omitted; the remote call's outcome is the `outcome` input.
Returns the Python pair `(caption, error)`. -/
def call_blip_endpoint (blip_url token : String) (outcome : BlipOutcome) :
    Option String × Option String :=
  if blip_url == "" || strContains blip_url "YOUR_BLIP_ENDPOINT_URL_HERE" then
    (none, some "BLIP Endpoint URL missing.")
  else if token == "" || strContains token "YOUR_DATABRICKS_PAT_HERE" then
    (none, some "Databricks API Token missing.")
  else
    match outcome with
    | .timeout => (none, some "Request to BLIP endpoint timed out.")
    | .reqError d => (none, some ("API Request Failed (BLIP): " ++ d))
    | .otherError d => (none, some ("Unexpected error calling BLIP: " ++ d))
    | .ok body =>
      match predictionsFirst body with
      | some pred =>
        match blipCaption pred with
        | some c =>
          if c ≠ "" ∧ c.length > 3 ∧ strContains (strToLower c) "error" = false then
            (some c, none)
          else
            (none, some ("Invalid caption/error from BLIP. Parsed: " ++ c ++
              ". Original: " ++ pyStr pred))
        | none =>
          (none, some ("Invalid caption/error from BLIP. Parsed: None. Original: " ++
            pyStr pred))
      | none => (none, some ("Unexpected BLIP response format: " ++ pyStr body))

/-! ## Extraction Client: `call_llm_endpoint` (app.py lines 89-180) -/

structure Msg where
  content : Option String

structure Choice where
  message : Option Msg
  finish_reason : Option String

structure ChatCompletion where
  choices : List Choice

inductive LLMOutcome where
  | initFail (detail : String)
  | callFail (detail : String)
  | ok (cc : ChatCompletion)

/-- Lines 127-128: `llm_response_content = None`, set from
`choices[0].message.content` when `choices` is non-empty and `message`
is truthy. -/
def contentOf (cc : ChatCompletion) : Option String :=
  match cc.choices with
  | [] => none
  | c :: _ =>
    match c.message with
    | none => none
    | some m => m.content

/-- Lines 127, 129: `finish_reason = "unknown"`, overwritten by
`choices[0].finish_reason` when that is truthy (non-`None`, non-empty). -/
def finishOf (cc : ChatCompletion) : String :=
  match cc.choices with
  | [] => "unknown"
  | c :: _ =>
    match c.finish_reason with
    | none => "unknown"
    | some s => if s == "" then "unknown" else s

/-- Line 160: item filter `isinstance(item, dict) and 'color' in item and
'type' in item`. -/
def isValidEntry (v : JValue) : Bool :=
  match v with
  | JValue.obj o => o.hasKey "color" && o.hasKey "type"
  | _ => false

/-- Lines 161-162: `item['color'] = str(item.get('color', 'unknown'))`
followed by `item['type'] = str(item.get('type', 'unknown'))`, applied in
that order to the same dict. -/
def coerceItem (o : JObject) : JObject :=
  let o1 := o.set "color" (JValue.str (pyStr (o.getD "color" (JValue.str "unknown"))))
  o1.set "type" (JValue.str (pyStr (o1.getD "type" (JValue.str "unknown"))))

/-- Lines 158-164: the validation loop.  Returns
`(validated_list, valid_items_found, post-state of output_data)` — the
third component records the entries of the input list after the loop,
making the in-place dict mutation of lines 161-162 explicit. -/
def validateLoop : List JValue → List JValue × Bool × List JValue
  | [] => ([], false, [])
  | item :: rest =>
    match item with
    | JValue.obj o =>
      if o.hasKey "color" && o.hasKey "type" then
        let o2 := coerceItem o
        let r := validateLoop rest
        (JValue.obj o2 :: r.1, true, JValue.obj o2 :: r.2.2)
      else
        let r := validateLoop rest
        (r.1, r.2.1, item :: r.2.2)
    | _ =>
      let r := validateLoop rest
      (r.1, r.2.1, item :: r.2.2)

/-- Lines 156-167: handling of the parsed candidate value `output_data`.
(The `json_e` detail interpolated into Python's decode-error message is
produced by the external library and is not reproduced; messages keep
their verbatim fixed prefixes.) -/
def processParsed (output_data : JValue) : Option (List JValue) × Option String :=
  match output_data with
  | JValue.arr xs =>
    let l := xs.toList
    let r := validateLoop l
    if !r.2.1 && !l.isEmpty then
      (none, some ("LLM list items lacked keys: " ++ pyStrList r.2.2))
    else
      (some r.1, none)
  | v => (none, some ("Parsed data not list. Type: " ++ pyTypeName v))

/-- Lines 148-152: `content.find('[')`, `content.rfind(']')`, and the
slice `content[start_index : end_index + 1]` when
`start_index != -1 and end_index != -1 and end_index >= start_index`. -/
def bracketCandidate (content : String) : Option String :=
  let cs := content.toList
  match firstIdx cs '[', lastIdx cs ']' with
  | some s, some e =>
    if s ≤ e then some (String.mk ((cs.drop s).take (e - s + 1))) else none
  | _, _ => none

/-- Lines 145-171: bracket scan, `json.loads`, then list validation. -/
def processContent (content : String) : Option (List JValue) × Option String :=
  match bracketCandidate content with
  | none =>
    (none, some ("Could not find JSON list markers \x27[]\x27 in: \x27" ++
      content ++ "\x27"))
  | some cand =>
    match loads cand with
    | none =>
      (none, some ("Failed to parse JSON list. Extracted: \x27" ++ cand ++
        "\x27. Raw: \x27" ++ content ++ "\x27."))
    | some v => processParsed v

/-- `call_llm_endpoint(caption_text, llm_endpoint_name, db_host, token)`,
lines 89-180.  The caption text only flows into the prompt, never into
the result, so it is omitted; the outcome of client construction plus
the single chat-completion call is the `outcome` input.  Returns the
Python pair `(list_of_result_dicts, error)`. -/
def call_llm_endpoint (llm_endpoint_name db_host token : String)
    (outcome : LLMOutcome) : Option (List JValue) × Option String :=
  if llm_endpoint_name == "" ||
      strContains llm_endpoint_name "YOUR_LLM_FOUNDATION_MODEL_NAME_HERE" then
    (none, some "LLM Endpoint Name missing.")
  else if db_host == "" || strContains db_host "YOUR_DATABRICKS_HOST_URL_HERE" then
    (none, some "Databricks Host URL missing.")
  else if token == "" || strContains token "YOUR_DATABRICKS_PAT_HERE" then
    (none, some "Databricks API Token missing.")
  else if !(strStartsWith db_host "http://" || strStartsWith db_host "https://") then
    (none, some "Databricks Host URL must start https://.")
  else
    match outcome with
    | .initFail d => (none, some ("Failed to initialize LLM client: " ++ d))
    | .callFail d => (none, some ("LLM API Call Failed: " ++ d))
    | .ok cc =>
      match contentOf cc with
      | none =>
        (none, some (
          if finishOf cc == "content_filter" then
            "LLM endpoint returned a null or empty response content. (Possibly due to content filtering)"
          else if finishOf cc == "length" then
            "LLM endpoint returned a null or empty response content. (Possibly due to max_tokens limit)"
          else
            "LLM endpoint returned a null or empty response content."))
      | some content => processContent content

/-- The four configuration guards of `call_llm_endpoint` jointly passing. -/
def llmConfigOk (llm_endpoint_name db_host token : String) : Bool :=
  !(llm_endpoint_name == "" ||
      strContains llm_endpoint_name "YOUR_LLM_FOUNDATION_MODEL_NAME_HERE") &&
  !(db_host == "" || strContains db_host "YOUR_DATABRICKS_HOST_URL_HERE") &&
  !(token == "" || strContains token "YOUR_DATABRICKS_PAT_HERE") &&
  (strStartsWith db_host "http://" || strStartsWith db_host "https://")

/-- The two configuration guards of `call_blip_endpoint` jointly passing. -/
def blipConfigOk (blip_url token : String) : Bool :=
  !(blip_url == "" || strContains blip_url "YOUR_BLIP_ENDPOINT_URL_HERE") &&
  !(token == "" || strContains token "YOUR_DATABRICKS_PAT_HERE")

/-- The state of one entry of `output_data` after the validation loop ran:
a dict carrying both keys has been coerced in place, anything else is
untouched. -/
def postEntry (v : JValue) : JValue :=
  match v with
  | JValue.obj o =>
    if o.hasKey "color" && o.hasKey "type" then JValue.obj (coerceItem o) else v
  | _ => v

/-- Exactly one component of a Python `(result, error)` pair is `None`. -/
def exclusivePair {α : Type} (r : Option α × Option String) : Prop :=
  (r.1 = none ∧ r.2 ≠ none) ∨ (r.1 ≠ none ∧ r.2 = none)

/-! ## Helper lemmas -/

theorem JObject.lookup_set_self : ∀ (o : JObject) (k : String) (v : JValue),
    (o.set k v).lookup k = some v
  | .nil, k, v => by simp [JObject.set, JObject.lookup]
  | .cons k1 v1 rest, k, v => by
    by_cases h : k1 = k
    · simp [JObject.set, h, JObject.lookup]
    · simp [JObject.set, h, JObject.lookup, lookup_set_self rest k v]

theorem JObject.lookup_set_other : ∀ (o : JObject) (k k2 : String) (v : JValue),
    k2 ≠ k → (o.set k v).lookup k2 = o.lookup k2
  | .nil, k, k2, v, h => by
    simp only [JObject.set, JObject.lookup]
    rw [if_neg (fun hh => h hh.symm)]
  | .cons k1 v1 rest, k, k2, v, h => by
    by_cases h1 : k1 = k
    · subst h1
      simp only [JObject.set, if_pos rfl, JObject.lookup]
      rw [if_neg (fun hh => h hh.symm), if_neg (fun hh => h hh.symm)]
    · simp [JObject.set, h1, JObject.lookup, lookup_set_other rest k k2 v h]

theorem coerceItem_color (o : JObject) :
    (coerceItem o).lookup "color" =
      some (JValue.str (pyStr (o.getD "color" (JValue.str "unknown")))) := by
  unfold coerceItem
  rw [JObject.lookup_set_other _ _ _ _ (by decide)]
  exact JObject.lookup_set_self ..

theorem coerceItem_type (o : JObject) :
    (coerceItem o).lookup "type" =
      some (JValue.str (pyStr (o.getD "type" (JValue.str "unknown")))) := by
  unfold coerceItem
  rw [JObject.lookup_set_self]
  simp only [JObject.getD]
  rw [JObject.lookup_set_other _ _ _ _ (by decide)]

theorem postEntry_of_not_valid (v : JValue) (h : isValidEntry v = false) :
    postEntry v = v := by
  cases v with
  | obj o =>
    simp only [isValidEntry] at h
    simp [postEntry, h]
  | str s => rfl
  | num n => rfl
  | bool b => rfl
  | null => rfl
  | arr xs => rfl

theorem validateLoop_fst (l : List JValue) :
    (validateLoop l).1 = (l.filter isValidEntry).map postEntry := by
  induction l with
  | nil => rfl
  | cons item rest ih =>
    cases item with
    | obj o =>
      by_cases h : (o.hasKey "color" && o.hasKey "type") = true
      · simp [validateLoop, h, List.filter_cons, isValidEntry, postEntry, ih]
      · simp only [Bool.not_eq_true] at h
        simp [validateLoop, h, List.filter_cons, isValidEntry, ih]
    | str s => simp [validateLoop, List.filter_cons, isValidEntry, ih]
    | num n => simp [validateLoop, List.filter_cons, isValidEntry, ih]
    | bool b => simp [validateLoop, List.filter_cons, isValidEntry, ih]
    | null => simp [validateLoop, List.filter_cons, isValidEntry, ih]
    | arr xs => simp [validateLoop, List.filter_cons, isValidEntry, ih]

theorem validateLoop_found (l : List JValue) :
    (validateLoop l).2.1 = l.any isValidEntry := by
  induction l with
  | nil => rfl
  | cons item rest ih =>
    cases item with
    | obj o =>
      by_cases h : (o.hasKey "color" && o.hasKey "type") = true
      · simp [validateLoop, h, List.any_cons, isValidEntry]
      · simp only [Bool.not_eq_true] at h
        simp [validateLoop, h, List.any_cons, isValidEntry, ih]
    | str s => simp [validateLoop, List.any_cons, isValidEntry, ih]
    | num n => simp [validateLoop, List.any_cons, isValidEntry, ih]
    | bool b => simp [validateLoop, List.any_cons, isValidEntry, ih]
    | null => simp [validateLoop, List.any_cons, isValidEntry, ih]
    | arr xs => simp [validateLoop, List.any_cons, isValidEntry, ih]

theorem strMkData (s : String) : String.mk s.data = s := by
  cases s; rfl

theorem firstIdx_append_of_not_mem (b : List Char) (c : Char) :
    ∀ (a : List Char), c ∉ a →
      firstIdx (a ++ b) c = (firstIdx b c).map (· + a.length)
  | [], _ => by cases hb : firstIdx b c <;> simp [hb]
  | x :: t, h => by
    rw [List.mem_cons] at h
    push_neg at h
    obtain ⟨hx, ht⟩ := h
    have hrec := firstIdx_append_of_not_mem b c t ht
    cases hb : firstIdx b c with
    | none => simp [firstIdx, Ne.symm hx, hrec, hb]
    | some i =>
      simp [firstIdx, Ne.symm hx, hrec, hb]
      omega

theorem firstIdx_lt_length (c : Char) : ∀ (cs : List Char) (i : Nat),
    firstIdx cs c = some i → i < cs.length
  | [], i, h => by simp [firstIdx] at h
  | x :: t, i, h => by
    by_cases hx : x = c
    · simp [firstIdx, hx] at h
      simp only [List.length_cons]
      omega
    · simp only [firstIdx, if_neg hx] at h
      rw [Option.map_eq_some'] at h
      obtain ⟨j, hj, hji⟩ := h
      have := firstIdx_lt_length c t j hj
      simp only [List.length_cons]
      omega

theorem firstIdx_get (c : Char) : ∀ (cs : List Char) (i : Nat),
    firstIdx cs c = some i → cs.get? i = some c
  | [], i, h => by simp [firstIdx] at h
  | x :: t, i, h => by
    by_cases hx : x = c
    · simp [firstIdx, hx] at h
      subst h
      simp [hx]
    · simp only [firstIdx, if_neg hx] at h
      rw [Option.map_eq_some'] at h
      obtain ⟨j, hj, hji⟩ := h
      subst hji
      simpa using firstIdx_get c t j hj

theorem lastIdx_get (c : Char) (cs : List Char) (i : Nat)
    (h : lastIdx cs c = some i) : cs.get? i = some c := by
  unfold lastIdx at h
  rw [Option.map_eq_some'] at h
  obtain ⟨j, hj, hji⟩ := h
  have hlt : j < cs.length := by
    simpa using firstIdx_lt_length c cs.reverse j hj
  have hg := firstIdx_get c cs.reverse j hj
  rw [List.get?_eq_getElem?] at hg ⊢
  rw [List.getElem?_reverse (by simpa using hlt)] at hg
  rw [← hji]
  exact hg

theorem validateLoop_post (l : List JValue) :
    (validateLoop l).2.2 = l.map postEntry := by
  induction l with
  | nil => rfl
  | cons item rest ih =>
    cases item with
    | obj o =>
      by_cases h : (o.hasKey "color" && o.hasKey "type") = true
      · simp [validateLoop, h, postEntry, ih]
      · simp only [Bool.not_eq_true] at h
        simp [validateLoop, h, postEntry, ih]
    | str s => simp [validateLoop, postEntry, ih]
    | num n => simp [validateLoop, postEntry, ih]
    | bool b => simp [validateLoop, postEntry, ih]
    | null => simp [validateLoop, postEntry, ih]
    | arr xs => simp [validateLoop, postEntry, ih]

theorem bracketCandidate_around (pre mid post : String)
    (hpre : '[' ∉ pre.data) (hpost : ']' ∉ post.data) :
    bracketCandidate (pre ++ "[" ++ mid ++ "]" ++ post) =
      some ("[" ++ mid ++ "]") := by
  have hlb : "[".data = ['['] := rfl
  have hrb : "]".data = [']'] := rfl
  have hcontent : (pre ++ "[" ++ mid ++ "]" ++ post).data
      = pre.data ++ ('[' :: (mid.data ++ ']' :: post.data)) := by
    simp [String.data_append, hlb, hrb]
  have hfirst : firstIdx (pre.data ++ ('[' :: (mid.data ++ ']' :: post.data))) '['
      = some pre.data.length := by
    rw [firstIdx_append_of_not_mem _ _ _ hpre]
    simp [firstIdx]
  have hrev : (pre.data ++ ('[' :: (mid.data ++ ']' :: post.data))).reverse
      = post.data.reverse ++ (']' :: (mid.data.reverse ++ '[' :: pre.data.reverse)) := by
    simp
  have hlastfi : firstIdx (pre.data ++ ('[' :: (mid.data ++ ']' :: post.data))).reverse ']'
      = some post.data.reverse.length := by
    rw [hrev, firstIdx_append_of_not_mem _ _ _ (by simpa using hpost)]
    simp [firstIdx]
  have hlast : lastIdx (pre.data ++ ('[' :: (mid.data ++ ']' :: post.data))) ']'
      = some (pre.data.length + mid.data.length + 1) := by
    unfold lastIdx
    rw [hlastfi]
    simp only [Option.map_some', Option.some.injEq, List.length_append,
      List.length_cons, List.length_reverse]
    omega
  have hdrop : (pre.data ++ ('[' :: (mid.data ++ ']' :: post.data))).drop pre.data.length
      = '[' :: (mid.data ++ ']' :: post.data) := List.drop_left _ _
  have htake : ('[' :: (mid.data ++ ']' :: post.data)).take (mid.data.length + 2)
      = '[' :: (mid.data ++ [']']) := by
    have harr : ('[' :: (mid.data ++ ']' :: post.data))
        = ('[' :: (mid.data ++ [']'])) ++ post.data := by simp
    have hlen : ('[' :: (mid.data ++ [']'])).length = mid.data.length + 2 := by simp
    rw [harr, ← hlen, List.take_left]
  have hres : ("[" ++ mid ++ "]").data = '[' :: (mid.data ++ [']']) := by
    simp [String.data_append, hlb, hrb]
  simp only [bracketCandidate]
  rw [show (pre ++ "[" ++ mid ++ "]" ++ post).toList
      = (pre ++ "[" ++ mid ++ "]" ++ post).data from rfl, hcontent, hfirst, hlast]
  simp only []
  rw [if_pos (by omega : pre.data.length ≤ pre.data.length + mid.data.length + 1)]
  rw [hdrop]
  rw [show pre.data.length + mid.data.length + 1 - pre.data.length + 1
      = mid.data.length + 2 from by omega]
  rw [htake, ← hres, strMkData]

theorem bracketCandidate_none_of_no_pair (content : String)
    (h : ∀ i j : Nat, content.data.get? i = some '[' →
      content.data.get? j = some ']' → j < i) :
    bracketCandidate content = none := by
  simp only [bracketCandidate]
  cases hf : firstIdx content.toList '[' with
  | none => rfl
  | some s =>
    cases hl : lastIdx content.toList ']' with
    | none => rfl
    | some e =>
      have hs := firstIdx_get '[' content.toList s hf
      have he := lastIdx_get ']' content.toList e hl
      have hlt := h s e hs he
      have hne : ¬ s ≤ e := by omega
      simp [hne]

theorem exclusive_processParsed (v : JValue) : exclusivePair (processParsed v) := by
  unfold exclusivePair
  cases v with
  | arr xs =>
    simp only [processParsed]
    split
    · exact Or.inl ⟨rfl, by simp⟩
    · exact Or.inr ⟨by simp, rfl⟩
  | str s => exact Or.inl ⟨rfl, by simp [processParsed]⟩
  | num n => exact Or.inl ⟨rfl, by simp [processParsed]⟩
  | bool b => exact Or.inl ⟨rfl, by simp [processParsed]⟩
  | null => exact Or.inl ⟨rfl, by simp [processParsed]⟩
  | obj o => exact Or.inl ⟨rfl, by simp [processParsed]⟩

theorem exclusive_processContent (c : String) : exclusivePair (processContent c) := by
  cases hb : bracketCandidate c with
  | none =>
    unfold exclusivePair
    exact Or.inl ⟨by simp [processContent, hb], by simp [processContent, hb]⟩
  | some cand =>
    cases hl : loads cand with
    | none =>
      unfold exclusivePair
      exact Or.inl ⟨by simp [processContent, hb, hl], by simp [processContent, hb, hl]⟩
    | some v =>
      have hpc : processContent c = processParsed v := by
        simp [processContent, hb, hl]
      rw [hpc]
      exact exclusive_processParsed v

theorem llmConfigOk_elim (name host token : String)
    (h : llmConfigOk name host token = true) :
    (name == "" || strContains name "YOUR_LLM_FOUNDATION_MODEL_NAME_HERE") = false ∧
    (host == "" || strContains host "YOUR_DATABRICKS_HOST_URL_HERE") = false ∧
    (token == "" || strContains token "YOUR_DATABRICKS_PAT_HERE") = false ∧
    (strStartsWith host "http://" || strStartsWith host "https://") = true := by
  simp only [llmConfigOk, Bool.and_eq_true, Bool.not_eq_true'] at h
  exact ⟨h.1.1.1, h.1.1.2, h.1.2, h.2⟩

theorem blipConfigOk_elim (blip_url token : String)
    (h : blipConfigOk blip_url token = true) :
    (blip_url == "" || strContains blip_url "YOUR_BLIP_ENDPOINT_URL_HERE") = false ∧
    (token == "" || strContains token "YOUR_DATABRICKS_PAT_HERE") = false := by
  simp only [blipConfigOk, Bool.and_eq_true, Bool.not_eq_true'] at h
  exact h

theorem call_llm_content (name host token : String) (cc : ChatCompletion)
    (s : String) (h : llmConfigOk name host token = true)
    (hc : contentOf cc = some s) :
    call_llm_endpoint name host token (.ok cc) = processContent s := by
  obtain ⟨h1, h2, h3, h4⟩ := llmConfigOk_elim name host token h
  simp [call_llm_endpoint, h1, h2, h3, h4, hc]

theorem call_llm_nullcontent (name host token : String) (cc : ChatCompletion)
    (h : llmConfigOk name host token = true) (hc : contentOf cc = none) :
    call_llm_endpoint name host token (.ok cc) = (none, some (
      if finishOf cc == "content_filter" then
        "LLM endpoint returned a null or empty response content. (Possibly due to content filtering)"
      else if finishOf cc == "length" then
        "LLM endpoint returned a null or empty response content. (Possibly due to max_tokens limit)"
      else
        "LLM endpoint returned a null or empty response content.")) := by
  obtain ⟨h1, h2, h3, h4⟩ := llmConfigOk_elim name host token h
  simp [call_llm_endpoint, h1, h2, h3, h4, hc]

theorem call_blip_noPred (blip_url token : String) (body : JValue)
    (h : blipConfigOk blip_url token = true)
    (hp : predictionsFirst body = none) :
    call_blip_endpoint blip_url token (.ok body) =
      (none, some ("Unexpected BLIP response format: " ++ pyStr body)) := by
  obtain ⟨h1, h2⟩ := blipConfigOk_elim blip_url token h
  simp [call_blip_endpoint, h1, h2, hp]

theorem call_blip_badPred (blip_url token : String) (body p : JValue)
    (h : blipConfigOk blip_url token = true)
    (hp : predictionsFirst body = some p) (hc : blipCaption p = none) :
    call_blip_endpoint blip_url token (.ok body) =
      (none, some ("Invalid caption/error from BLIP. Parsed: None. Original: " ++
        pyStr p)) := by
  obtain ⟨h1, h2⟩ := blipConfigOk_elim blip_url token h
  simp [call_blip_endpoint, h1, h2, hp, hc]

theorem call_blip_caption (blip_url token : String) (body p : JValue) (c : String)
    (h : blipConfigOk blip_url token = true)
    (hp : predictionsFirst body = some p) (hc : blipCaption p = some c) :
    call_blip_endpoint blip_url token (.ok body) =
      if c ≠ "" ∧ c.length > 3 ∧ strContains (strToLower c) "error" = false then
        (some c, none)
      else
        (none, some ("Invalid caption/error from BLIP. Parsed: " ++ c ++
          ". Original: " ++ pyStr p)) := by
  obtain ⟨h1, h2⟩ := blipConfigOk_elim blip_url token h
  simp [call_blip_endpoint, h1, h2, hp, hc]

/-! ## Claims -/

/-- Claim C1, counterexample: the claim says a null upstream value defaults
to the literal string "unknown", but on the parsed list
`[\x7b"color": null, "type": "shirt"\x7d]` the code coerces the null color with
Python `str()`, producing the string "None", not "unknown". -/
theorem C1_counterexample :
    call_llm_endpoint "model" "https://host" "token"
        (LLMOutcome.ok ⟨[⟨some ⟨some "[\x7b\"color\": null, \"type\": \"shirt\"\x7d]"⟩, none⟩]⟩) =
      (some [JValue.obj (JObject.cons "color" (JValue.str "None")
        (JObject.cons "type" (JValue.str "shirt") JObject.nil))], none) ∧
    "None" ≠ "unknown" := by
  exact ⟨by decide, by decide⟩

/-- Claim C1 (amended): every validated `ItemTag` has both fields present
as strings (never null); values are coerced with Python `str()`, which
keeps string values unchanged but renders a null value as "None" (the
`unknown` default of `dict.get` is unreachable since both keys are
required to be present). -/
theorem C1_theorem :
    (∀ (l : List JValue) (v : JValue), v ∈ (validateLoop l).1 →
      ∃ (o : JObject) (c t : String), v = JValue.obj o ∧
        o.lookup "color" = some (JValue.str c) ∧
        o.lookup "type" = some (JValue.str t)) ∧
    (∀ o : JObject,
      (coerceItem o).lookup "color"
        = some (JValue.str (pyStr (o.getD "color" (JValue.str "unknown")))) ∧
      (coerceItem o).lookup "type"
        = some (JValue.str (pyStr (o.getD "type" (JValue.str "unknown"))))) ∧
    pyStr JValue.null = "None" ∧ (∀ s : String, pyStr (JValue.str s) = s) := by
  refine ⟨?_, fun o => ⟨coerceItem_color o, coerceItem_type o⟩, rfl, fun s => rfl⟩
  intro l v hv
  rw [validateLoop_fst, List.mem_map] at hv
  obtain ⟨u, hu, rfl⟩ := hv
  rw [List.mem_filter] at hu
  obtain ⟨hmem, hval⟩ := hu
  cases u with
  | obj o =>
    simp only [isValidEntry] at hval
    exact ⟨coerceItem o, _, _, by simp [postEntry, hval],
      coerceItem_color o, coerceItem_type o⟩
  | str s => simp [isValidEntry] at hval
  | num n => simp [isValidEntry] at hval
  | bool b => simp [isValidEntry] at hval
  | null => simp [isValidEntry] at hval
  | arr xs => simp [isValidEntry] at hval

/-- Claim C1, witness: instantiation of the membership conjunct at a
concrete one-entry list. -/
theorem C1_witness :
    ∃ (o : JObject) (c t : String),
      JValue.obj (JObject.cons "color" (JValue.str "blue")
        (JObject.cons "type" (JValue.str "jacket") JObject.nil)) = JValue.obj o ∧
      o.lookup "color" = some (JValue.str c) ∧
      o.lookup "type" = some (JValue.str t) :=
  C1_theorem.1
    [JValue.obj (JObject.cons "color" (JValue.str "blue")
      (JObject.cons "type" (JValue.str "jacket") JObject.nil))]
    (JValue.obj (JObject.cons "color" (JValue.str "blue")
      (JObject.cons "type" (JValue.str "jacket") JObject.nil)))
    (by decide)

/-- Claim C2, counterexample: for a model response with EMPTY (but not
null) content, the code does not return the empty-model-response failure;
it proceeds to bracket-scanning and fails with the no-JSON-list-markers
message, which does not even extend the empty-response message. -/
theorem C2_counterexample :
    call_llm_endpoint "model" "https://host" "token"
        (LLMOutcome.ok ⟨[⟨some ⟨some ""⟩, none⟩]⟩) =
      (none, some "Could not find JSON list markers \x27[]\x27 in: \x27\x27") ∧
    strStartsWith "Could not find JSON list markers \x27[]\x27 in: \x27\x27"
      "LLM endpoint returned a null or empty response content." = false := by
  exact ⟨by decide, by decide⟩

/-- Claim C2 (amended): only a NULL response content yields the
empty-model-response failure (annotated with the stop reason when it is
`content_filter` or `length`), before any bracket scanning; an empty
string content instead reaches the bracket scan and fails with the
no-JSON-list-markers message. -/
theorem C2_theorem :
    (∀ (name host token : String) (cc : ChatCompletion),
      llmConfigOk name host token = true → contentOf cc = none →
      call_llm_endpoint name host token (.ok cc) = (none, some (
        if finishOf cc == "content_filter" then
          "LLM endpoint returned a null or empty response content. (Possibly due to content filtering)"
        else if finishOf cc == "length" then
          "LLM endpoint returned a null or empty response content. (Possibly due to max_tokens limit)"
        else
          "LLM endpoint returned a null or empty response content."))) ∧
    (∀ (name host token : String) (cc : ChatCompletion),
      llmConfigOk name host token = true → contentOf cc = some "" →
      call_llm_endpoint name host token (.ok cc) =
        (none, some "Could not find JSON list markers \x27[]\x27 in: \x27\x27")) := by
  constructor
  · intro name host token cc h hc
    exact call_llm_nullcontent name host token cc h hc
  · intro name host token cc h hc
    rw [call_llm_content name host token cc "" h hc]
    rfl

/-- Claim C2, witness: a completion with no choices has null content and
an "unknown" stop reason, yielding the unannotated empty-response
failure. -/
theorem C2_witness :
    call_llm_endpoint "model" "https://host" "token" (LLMOutcome.ok ⟨[]⟩) =
      (none, some "LLM endpoint returned a null or empty response content.") := by
  rw [C2_theorem.1 "model" "https://host" "token" ⟨[]⟩ (by decide) rfl]
  rfl

/-- Claim C3: a parsed empty JSON list yields Success with an empty
sequence; a parsed list with at least one valid item yields Success; and
under a passing configuration the extraction call's handling of any
response content is exactly the bracket-scan/parse/validate pipeline. -/
theorem C3_theorem :
    processParsed (JValue.arr JArray.nil) = (some [], none) ∧
    (∀ xs : JArray, (∃ v ∈ xs.toList, isValidEntry v = true) →
      ∃ l : List JValue, processParsed (JValue.arr xs) = (some l, none)) ∧
    (∀ (name host token : String) (cc : ChatCompletion) (s cand : String) (v : JValue),
      llmConfigOk name host token = true → contentOf cc = some s →
      bracketCandidate s = some cand → loads cand = some v →
      call_llm_endpoint name host token (.ok cc) = processParsed v) := by
  refine ⟨rfl, ?_, ?_⟩
  · rintro xs ⟨v, hv, hval⟩
    refine ⟨(validateLoop xs.toList).1, ?_⟩
    have hfound : (validateLoop xs.toList).2.1 = true := by
      rw [validateLoop_found]
      exact List.any_eq_true.mpr ⟨v, hv, hval⟩
    simp [processParsed, hfound]
  · intro name host token cc s cand v h hc hb hl
    rw [call_llm_content name host token cc s h hc]
    simp [processContent, hb, hl]

/-- Claim C3, witness: a singleton valid entry yields Success, and the
full call on content "[]" reduces to the parsed-list pipeline. -/
theorem C3_witness :
    (∃ l : List JValue,
      processParsed (JValue.arr (JArray.cons (JValue.obj
        (JObject.cons "color" (JValue.str "blue")
          (JObject.cons "type" (JValue.str "jacket") JObject.nil))) JArray.nil)) =
      (some l, none)) ∧
    call_llm_endpoint "model" "https://host" "token"
        (LLMOutcome.ok ⟨[⟨some ⟨some "[]"⟩, none⟩]⟩) =
      processParsed (JValue.arr JArray.nil) := by
  constructor
  · exact C3_theorem.2.1 _ ⟨JValue.obj (JObject.cons "color" (JValue.str "blue")
      (JObject.cons "type" (JValue.str "jacket") JObject.nil)), by decide, by decide⟩
  · exact C3_theorem.2.2 "model" "https://host" "token" _ "[]" "[]"
      (JValue.arr JArray.nil) (by decide) rfl (by decide) (by decide)

/-- Claim C4: a non-empty parsed list all of whose entries are dropped by
validation yields the no-valid-items failure; while any list with at
least one valid entry yields Success (dropped entries are not a hard
failure). -/
theorem C4_theorem :
    (∀ xs : JArray, xs.toList ≠ [] →
      (∀ v ∈ xs.toList, isValidEntry v = false) →
      processParsed (JValue.arr xs) =
        (none, some ("LLM list items lacked keys: " ++ pyStrList xs.toList))) ∧
    (∀ xs : JArray, (∃ v ∈ xs.toList, isValidEntry v = true) →
      ∃ l : List JValue, processParsed (JValue.arr xs) = (some l, none)) := by
  constructor
  · intro xs hne hall
    have hany : xs.toList.any isValidEntry = false := by
      rw [List.any_eq_false]
      intro v hv
      simp [hall v hv]
    have hfound : (validateLoop xs.toList).2.1 = false := by
      rw [validateLoop_found]
      exact hany
    have hpost : (validateLoop xs.toList).2.2 = xs.toList := by
      rw [validateLoop_post]
      calc xs.toList.map postEntry
          = xs.toList.map id :=
            List.map_congr_left (fun v hv => postEntry_of_not_valid v (hall v hv))
        _ = xs.toList := List.map_id _
    have hnonempty : xs.toList.isEmpty = false := by
      cases hxs : xs.toList with
      | nil => exact absurd hxs hne
      | cons a t => rfl
    simp [processParsed, hfound, hnonempty, hpost]
  · rintro xs ⟨v, hv, hval⟩
    refine ⟨(validateLoop xs.toList).1, ?_⟩
    have hfound : (validateLoop xs.toList).2.1 = true := by
      rw [validateLoop_found]
      exact List.any_eq_true.mpr ⟨v, hv, hval⟩
    simp [processParsed, hfound]

/-- Claim C4, witness: the single entry of `[\x7b"type": "shirt"\x7d]` lacks
`color`, so it is dropped and the whole list fails. -/
theorem C4_witness :
    processParsed (JValue.arr (JArray.cons
        (JValue.obj (JObject.cons "type" (JValue.str "shirt") JObject.nil))
        JArray.nil)) =
      (none, some ("LLM list items lacked keys: " ++
        pyStrList [JValue.obj (JObject.cons "type" (JValue.str "shirt") JObject.nil)])) :=
  C4_theorem.1 _ (by decide) (by decide)

/-- Claim C5, counterexample: a first prediction of the wrong type (the
number 42) makes `call_blip_endpoint` fail with the invalid-caption
message, not the unexpected-response-format message the claim states. -/
theorem C5_counterexample :
    call_blip_endpoint "url" "token" (BlipOutcome.ok (JValue.obj
        (JObject.cons "predictions"
          (JValue.arr (JArray.cons (JValue.num 42) JArray.nil)) JObject.nil))) =
      (none, some "Invalid caption/error from BLIP. Parsed: None. Original: 42") ∧
    "Invalid caption/error from BLIP. Parsed: None. Original: 42" ≠
      "Unexpected BLIP response format: " ++ pyStr (JValue.obj
        (JObject.cons "predictions"
          (JValue.arr (JArray.cons (JValue.num 42) JArray.nil)) JObject.nil)) := by
  exact ⟨by decide, by decide⟩

/-- Claim C5 (amended): the two accepted prediction shapes (bare string
and `\x7b"0": string\x7d`) normalize to the same string and yield equal Success
results; a missing/non-list/empty `predictions` field yields the
unexpected-response-format failure; but a first prediction of the wrong
type leaves the caption unparsed and yields the invalid-caption failure
instead. -/
theorem C5_theorem :
    (∀ (url token s : String), blipConfigOk url token = true →
      s ≠ "" → s.length > 3 → strContains (strToLower s) "error" = false →
      call_blip_endpoint url token (.ok (JValue.obj (JObject.cons "predictions"
          (JValue.arr (JArray.cons (JValue.str s) JArray.nil)) JObject.nil))) =
        (some s, none) ∧
      call_blip_endpoint url token (.ok (JValue.obj (JObject.cons "predictions"
          (JValue.arr (JArray.cons (JValue.obj (JObject.cons "0" (JValue.str s) JObject.nil))
            JArray.nil)) JObject.nil))) = (some s, none)) ∧
    (∀ (url token : String) (o : JObject), blipConfigOk url token = true →
      predictionsFirst (JValue.obj o) = none →
      call_blip_endpoint url token (.ok (JValue.obj o)) =
        (none, some ("Unexpected BLIP response format: " ++ pyStr (JValue.obj o)))) ∧
    (∀ (url token : String) (body p : JValue), blipConfigOk url token = true →
      predictionsFirst body = some p → blipCaption p = none →
      call_blip_endpoint url token (.ok body) =
        (none, some ("Invalid caption/error from BLIP. Parsed: None. Original: " ++
          pyStr p))) := by
  refine ⟨?_, ?_, ?_⟩
  · intro url token s h hs1 hs2 hs3
    constructor
    · rw [call_blip_caption url token
        (JValue.obj (JObject.cons "predictions"
          (JValue.arr (JArray.cons (JValue.str s) JArray.nil)) JObject.nil))
        (JValue.str s) s h rfl rfl]
      rw [if_pos ⟨hs1, hs2, hs3⟩]
    · rw [call_blip_caption url token
        (JValue.obj (JObject.cons "predictions"
          (JValue.arr (JArray.cons (JValue.obj (JObject.cons "0" (JValue.str s) JObject.nil))
            JArray.nil)) JObject.nil))
        (JValue.obj (JObject.cons "0" (JValue.str s) JObject.nil)) s h rfl rfl]
      rw [if_pos ⟨hs1, hs2, hs3⟩]
  · intro url token o h hp
    exact call_blip_noPred url token _ h hp
  · intro url token body p h hp hc
    exact call_blip_badPred url token body p h hp hc

/-- Claim C5, witness: both response shapes around the caption
"a red jacket" give the same Success result. -/
theorem C5_witness :
    call_blip_endpoint "url" "token" (.ok (JValue.obj (JObject.cons "predictions"
        (JValue.arr (JArray.cons (JValue.str "a red jacket") JArray.nil)) JObject.nil))) =
      (some "a red jacket", none) ∧
    call_blip_endpoint "url" "token" (.ok (JValue.obj (JObject.cons "predictions"
        (JValue.arr (JArray.cons (JValue.obj
          (JObject.cons "0" (JValue.str "a red jacket") JObject.nil)) JArray.nil))
        JObject.nil))) = (some "a red jacket", none) :=
  C5_theorem.1 "url" "token" "a red jacket" (by decide) (by decide) (by decide) (by decide)

/-- Claim C6: for a normalized caption string, the caption call succeeds
with exactly that string iff the string is non-empty, longer than 3
characters, and free of "error" case-insensitively; otherwise it fails
with the invalid-caption message. -/
theorem C6_theorem :
    ∀ (url token : String) (body p : JValue) (s : String),
      blipConfigOk url token = true →
      predictionsFirst body = some p → blipCaption p = some s →
      ((call_blip_endpoint url token (.ok body) = (some s, none) ↔
        (s ≠ "" ∧ s.length > 3 ∧ strContains (strToLower s) "error" = false)) ∧
      (¬ (s ≠ "" ∧ s.length > 3 ∧ strContains (strToLower s) "error" = false) →
        call_blip_endpoint url token (.ok body) =
          (none, some ("Invalid caption/error from BLIP. Parsed: " ++ s ++
            ". Original: " ++ pyStr p)))) := by
  intro url token body p s h hp hc
  rw [call_blip_caption url token body p s h hp hc]
  by_cases hcond : s ≠ "" ∧ s.length > 3 ∧ strContains (strToLower s) "error" = false
  · rw [if_pos hcond]
    exact ⟨⟨fun _ => hcond, fun _ => rfl⟩, fun hn => absurd hcond hn⟩
  · rw [if_neg hcond]
    refine ⟨⟨fun hcontra => ?_, fun hcontra => absurd hcontra hcond⟩, fun _ => rfl⟩
    exact absurd (congrArg Prod.fst hcontra) (by simp)

/-- Claim C6, witness: "a red jacket" passes validation, "ab" fails it. -/
theorem C6_witness :
    call_blip_endpoint "url" "token" (.ok (JValue.obj (JObject.cons "predictions"
        (JValue.arr (JArray.cons (JValue.str "a red jacket") JArray.nil)) JObject.nil))) =
      (some "a red jacket", none) ∧
    call_blip_endpoint "url" "token" (.ok (JValue.obj (JObject.cons "predictions"
        (JValue.arr (JArray.cons (JValue.str "ab") JArray.nil)) JObject.nil))) =
      (none, some ("Invalid caption/error from BLIP. Parsed: " ++ "ab" ++
        ". Original: " ++ pyStr (JValue.str "ab"))) := by
  constructor
  · have h := C6_theorem "url" "token"
      (JValue.obj (JObject.cons "predictions"
        (JValue.arr (JArray.cons (JValue.str "a red jacket") JArray.nil)) JObject.nil))
      (JValue.str "a red jacket") "a red jacket" (by decide) rfl rfl
    exact h.1.mpr (by decide)
  · have h := C6_theorem "url" "token"
      (JValue.obj (JObject.cons "predictions"
        (JValue.arr (JArray.cons (JValue.str "ab") JArray.nil)) JObject.nil))
      (JValue.str "ab") "ab" (by decide) rfl rfl
    exact h.2 (by decide)

/-- Claim C7: a missing or placeholder endpoint, host, or credential
makes either client return the matching configuration failure regardless
of the remote call's outcome (so no network call influences the result),
and a host without an http/https scheme fails the extraction call with
the invalid-host error. -/
theorem C7_theorem :
    (∀ (url token : String) (oc : BlipOutcome),
      (url == "" || strContains url "YOUR_BLIP_ENDPOINT_URL_HERE") = true →
      call_blip_endpoint url token oc = (none, some "BLIP Endpoint URL missing.")) ∧
    (∀ (url token : String) (oc : BlipOutcome),
      (url == "" || strContains url "YOUR_BLIP_ENDPOINT_URL_HERE") = false →
      (token == "" || strContains token "YOUR_DATABRICKS_PAT_HERE") = true →
      call_blip_endpoint url token oc = (none, some "Databricks API Token missing.")) ∧
    (∀ (name host token : String) (oc : LLMOutcome),
      (name == "" || strContains name "YOUR_LLM_FOUNDATION_MODEL_NAME_HERE") = true →
      call_llm_endpoint name host token oc = (none, some "LLM Endpoint Name missing.")) ∧
    (∀ (name host token : String) (oc : LLMOutcome),
      (name == "" || strContains name "YOUR_LLM_FOUNDATION_MODEL_NAME_HERE") = false →
      (host == "" || strContains host "YOUR_DATABRICKS_HOST_URL_HERE") = true →
      call_llm_endpoint name host token oc = (none, some "Databricks Host URL missing.")) ∧
    (∀ (name host token : String) (oc : LLMOutcome),
      (name == "" || strContains name "YOUR_LLM_FOUNDATION_MODEL_NAME_HERE") = false →
      (host == "" || strContains host "YOUR_DATABRICKS_HOST_URL_HERE") = false →
      (token == "" || strContains token "YOUR_DATABRICKS_PAT_HERE") = true →
      call_llm_endpoint name host token oc = (none, some "Databricks API Token missing.")) ∧
    (∀ (name host token : String) (oc : LLMOutcome),
      (name == "" || strContains name "YOUR_LLM_FOUNDATION_MODEL_NAME_HERE") = false →
      (host == "" || strContains host "YOUR_DATABRICKS_HOST_URL_HERE") = false →
      (token == "" || strContains token "YOUR_DATABRICKS_PAT_HERE") = false →
      (strStartsWith host "http://" || strStartsWith host "https://") = false →
      call_llm_endpoint name host token oc =
        (none, some "Databricks Host URL must start https://.")) := by
  refine ⟨?_, ?_, ?_, ?_, ?_, ?_⟩
  · intro url token oc h1
    simp [call_blip_endpoint, h1]
  · intro url token oc h1 h2
    simp [call_blip_endpoint, h1, h2]
  · intro name host token oc h1
    simp [call_llm_endpoint, h1]
  · intro name host token oc h1 h2
    simp [call_llm_endpoint, h1, h2]
  · intro name host token oc h1 h2 h3
    simp [call_llm_endpoint, h1, h2, h3]
  · intro name host token oc h1 h2 h3 h4
    simp [call_llm_endpoint, h1, h2, h3, h4]

/-- Claim C7, witness: each configuration guard instantiated (empty or
placeholder values, and a schemeless host), with a timeout outcome
showing independence from the remote call. -/
theorem C7_witness :
    call_blip_endpoint "" "t" BlipOutcome.timeout =
      (none, some "BLIP Endpoint URL missing.") ∧
    call_blip_endpoint "u" "dapi_YOUR_DATABRICKS_PAT_HERE" BlipOutcome.timeout =
      (none, some "Databricks API Token missing.") ∧
    call_llm_endpoint "YOUR_LLM_FOUNDATION_MODEL_NAME_HERE" "h" "t"
        (LLMOutcome.callFail "x") = (none, some "LLM Endpoint Name missing.") ∧
    call_llm_endpoint "m" "" "t" (LLMOutcome.callFail "x") =
      (none, some "Databricks Host URL missing.") ∧
    call_llm_endpoint "m" "https://h" "" (LLMOutcome.callFail "x") =
      (none, some "Databricks API Token missing.") ∧
    call_llm_endpoint "m" "ftp://h" "t" (LLMOutcome.callFail "x") =
      (none, some "Databricks Host URL must start https://.") :=
  ⟨C7_theorem.1 "" "t" BlipOutcome.timeout (by decide),
   C7_theorem.2.1 "u" "dapi_YOUR_DATABRICKS_PAT_HERE" BlipOutcome.timeout
     (by decide) (by decide),
   C7_theorem.2.2.1 "YOUR_LLM_FOUNDATION_MODEL_NAME_HERE" "h" "t"
     (LLMOutcome.callFail "x") (by decide),
   C7_theorem.2.2.2.1 "m" "" "t" (LLMOutcome.callFail "x") (by decide) (by decide),
   C7_theorem.2.2.2.2.1 "m" "https://h" "" (LLMOutcome.callFail "x")
     (by decide) (by decide) (by decide),
   C7_theorem.2.2.2.2.2 "m" "ftp://h" "t" (LLMOutcome.callFail "x")
     (by decide) (by decide) (by decide) (by decide)⟩

/-- Claim C8: the candidate JSON list is the substring from the first
opening bracket to the last closing bracket, so prose around a
well-formed list is tolerated (shown both in general and on the concrete
example); when no such bracket pair exists the call fails with the
no-JSON-list-markers message. -/
theorem C8_theorem :
    (∀ pre mid post : String, '[' ∉ pre.data → ']' ∉ post.data →
      bracketCandidate (pre ++ "[" ++ mid ++ "]" ++ post) =
        some ("[" ++ mid ++ "]")) ∧
    (∀ (name host token : String) (cc : ChatCompletion) (content : String),
      llmConfigOk name host token = true → contentOf cc = some content →
      (∀ i j : Nat, content.data.get? i = some '[' →
        content.data.get? j = some ']' → j < i) →
      call_llm_endpoint name host token (.ok cc) =
        (none, some ("Could not find JSON list markers \x27[]\x27 in: \x27" ++
          content ++ "\x27"))) ∧
    call_llm_endpoint "model" "https://host" "token"
        (.ok ⟨[⟨some ⟨some "Some items: [\x7b\"color\":\"blue\",\"type\":\"jacket\"\x7d]"⟩,
          none⟩]⟩) =
      (some [JValue.obj (JObject.cons "color" (JValue.str "blue")
        (JObject.cons "type" (JValue.str "jacket") JObject.nil))], none) := by
  refine ⟨bracketCandidate_around, ?_, by decide⟩
  intro name host token cc content h hc hidx
  rw [call_llm_content name host token cc content h hc]
  have hbn : bracketCandidate content = none :=
    bracketCandidate_none_of_no_pair content hidx
  simp [processContent, hbn]

/-- Claim C8, witness: the bracket scan strips concrete surrounding
prose, and a bracketless content makes the call fail with the
no-JSON-list-markers message. -/
theorem C8_witness :
    bracketCandidate ("Some items: " ++ "[" ++ "1, 2" ++ "]" ++ " done") =
      some ("[" ++ "1, 2" ++ "]") ∧
    call_llm_endpoint "model" "https://host" "token"
        (.ok ⟨[⟨some ⟨some "no list here"⟩, none⟩]⟩) =
      (none, some ("Could not find JSON list markers \x27[]\x27 in: \x27" ++
        "no list here" ++ "\x27")) := by
  constructor
  · exact C8_theorem.1 "Some items: " "1, 2" " done" (by decide) (by decide)
  · refine C8_theorem.2.1 "model" "https://host" "token"
      ⟨[⟨some ⟨some "no list here"⟩, none⟩]⟩ "no list here" (by decide) rfl ?_
    intro i j hi hj
    exfalso
    have hmem : '[' ∈ "no list here".data := List.get?_mem hi
    revert hmem
    decide

/-- Claim C9, counterexample: coercion is not pure; validating the parsed
list `[\x7b"color": 42, "type": "shirt"\x7d]` rewrites the input mapping in
place, so after the loop the original entry holds the coerced string
"42" instead of the number 42. -/
theorem C9_counterexample :
    (validateLoop [JValue.obj (JObject.cons "color" (JValue.num 42)
        (JObject.cons "type" (JValue.str "shirt") JObject.nil))]).2.2 =
      [JValue.obj (JObject.cons "color" (JValue.str "42")
        (JObject.cons "type" (JValue.str "shirt") JObject.nil))] ∧
    [JValue.obj (JObject.cons "color" (JValue.str "42")
        (JObject.cons "type" (JValue.str "shirt") JObject.nil))] ≠
      [JValue.obj (JObject.cons "color" (JValue.num 42)
        (JObject.cons "type" (JValue.str "shirt") JObject.nil))] := by
  exact ⟨by decide, by decide⟩

/-- Claim C9 (amended): the validation loop coerces in place: after the
loop every input entry carrying both keys has been overwritten with its
coerced mapping (`postEntry`), and the output list consists of exactly
those same mutated mappings, in order. -/
theorem C9_theorem :
    ∀ l : List JValue,
      (validateLoop l).2.2 = l.map postEntry ∧
      (validateLoop l).1 = (l.filter isValidEntry).map postEntry :=
  fun l => ⟨validateLoop_post l, validateLoop_fst l⟩

/-- Claim C10: both clients return an exclusive `(result, error)` pair:
on every input exactly one component is `None`. -/
theorem C10_theorem :
    (∀ (blip_url token : String) (oc : BlipOutcome),
      exclusivePair (call_blip_endpoint blip_url token oc)) ∧
    (∀ (name host token : String) (oc : LLMOutcome),
      exclusivePair (call_llm_endpoint name host token oc)) := by
  constructor
  · intro u t oc
    unfold exclusivePair call_blip_endpoint
    repeat' split
    all_goals first
      | exact Or.inl ⟨rfl, by simp⟩
      | exact Or.inr ⟨by simp, rfl⟩
  · intro name host token oc
    unfold call_llm_endpoint
    repeat' split
    all_goals first
      | exact exclusive_processContent _
      | (unfold exclusivePair; exact Or.inl ⟨rfl, by simp⟩)

end ClothingAnalyzer
